import Mathlib

/-!
Verification of the data-collection / drive-control core of the
`graduation_project` repository against its natural-language specification.

The Python sources are shallowly embedded:
  * `dc_motors_module.py`   → `move_forward`, `move_backward` (floats as `ℚ`);
  * `data_collection_main.py` → `keyList`, `get_key_press`,
    `update_movement_controls`, and the loop body `tick` / `run`;
  * `data_collection_module.py` → `DataCollector`, `collect_data`, `save_log`,
    and the folder scan of the `record == 1` branch (`scanFree`);
  * hardware collaborators (`Motor`, `Servo`, camera) are modelled at their
    call boundary: actuation commands and release calls are recorded as data.
-/

/-! ## Drive mixer (`Step3-Implementation/dc_motors_module.py`) -/

/-- Python's binary `min`. -/
def minQ (a b : ℚ) : ℚ := if a ≤ b then a else b

/-- Python's binary `max`. -/
def maxQ (a b : ℚ) : ℚ := if a ≤ b then b else a

/-- `max(lo, min(hi, x))`, the clamping idiom used throughout the sources. -/
def clampQ (lo hi x : ℚ) : ℚ := maxQ lo (minQ hi x)

/-- Direction flag of a `gpiozero` motor actuation primitive:
`Motor.forward(m)` or `Motor.backward(m)`. -/
inductive Dir where
  | forward
  | backward
deriving DecidableEq

/-- One wheel-side actuation: which primitive was invoked and with which
unsigned magnitude. -/
structure WheelCmd where
  dir : Dir
  magnitude : ℚ
deriving DecidableEq

/-- The pair of actuations issued to the right and left motor banks. -/
structure WheelCmds where
  right : WheelCmd
  left : WheelCmd
deriving DecidableEq

/-- `DcMotorController.move_forward` (dc_motors_module.py, lines 55-70):
clamp speed to `[0,1]` and angle to `[-1,1]`, mix, clamp each side to
`[0,1]`, and invoke the `forward` primitive on both sides. -/
def move_forward (speed angle : ℚ) : WheelCmds :=
  let s := clampQ 0 1 speed
  let a := clampQ (-1) 1 angle
  let speed_right := clampQ 0 1 (s - a)
  let speed_left := clampQ 0 1 (s + a)
  ⟨⟨Dir.forward, speed_right⟩, ⟨Dir.forward, speed_left⟩⟩

/-- `DcMotorController.move_backward` (dc_motors_module.py, lines 72-88):
negate the speed, then clamp the negated value to `[0,1]`, mix with the
clamped angle, clamp each side to `[0,1]`, and invoke the `backward`
primitive on both sides. -/
def move_backward (speed angle : ℚ) : WheelCmds :=
  let s := clampQ 0 1 (-speed)
  let a := clampQ (-1) 1 angle
  let speed_right := clampQ 0 1 (s - a)
  let speed_left := clampQ 0 1 (s + a)
  ⟨⟨Dir.backward, speed_right⟩, ⟨Dir.backward, speed_left⟩⟩

theorem le_clampQ (lo hi x : ℚ) : lo ≤ clampQ lo hi x := by
  unfold clampQ maxQ minQ
  split <;> split <;> linarith

theorem clampQ_le (lo hi x : ℚ) (h : lo ≤ hi) : clampQ lo hi x ≤ hi := by
  unfold clampQ maxQ minQ
  split <;> (try split) <;> linarith

theorem clampQ_eq_self (lo hi x : ℚ) (h1 : lo ≤ x) (h2 : x ≤ hi) :
    clampQ lo hi x = x := by
  unfold clampQ maxQ minQ
  split <;> (try split) <;> linarith

/-- C1: `move_forward(speed, angle)` clamps speed to `[0,1]` and angle to
`[-1,1]`, drives the right wheel forward with magnitude
`clamp(speed - angle, 0, 1)` and the left wheel forward with magnitude
`clamp(speed + angle, 0, 1)`; both outputs lie in `[0,1]`; `left - right`
equals `2 * angle` whenever neither side saturates; and
`move_forward(0.6, 0.6)` yields right `0.0` and left `1.0`. -/
theorem C1_move_forward (speed angle : ℚ) :
    (move_forward speed angle).right =
      ⟨Dir.forward, clampQ 0 1 (clampQ 0 1 speed - clampQ (-1) 1 angle)⟩ ∧
    (move_forward speed angle).left =
      ⟨Dir.forward, clampQ 0 1 (clampQ 0 1 speed + clampQ (-1) 1 angle)⟩ ∧
    0 ≤ (move_forward speed angle).right.magnitude ∧
    (move_forward speed angle).right.magnitude ≤ 1 ∧
    0 ≤ (move_forward speed angle).left.magnitude ∧
    (move_forward speed angle).left.magnitude ≤ 1 ∧
    (0 ≤ clampQ 0 1 speed - clampQ (-1) 1 angle →
     clampQ 0 1 speed - clampQ (-1) 1 angle ≤ 1 →
     0 ≤ clampQ 0 1 speed + clampQ (-1) 1 angle →
     clampQ 0 1 speed + clampQ (-1) 1 angle ≤ 1 →
     (move_forward speed angle).left.magnitude -
       (move_forward speed angle).right.magnitude = 2 * angle) ∧
    move_forward (6/10) (6/10) = ⟨⟨Dir.forward, 0⟩, ⟨Dir.forward, 1⟩⟩ := by
  refine ⟨rfl, rfl, le_clampQ _ _ _, clampQ_le _ _ _ (by norm_num),
    le_clampQ _ _ _, clampQ_le _ _ _ (by norm_num), ?_,
    by norm_num [move_forward, clampQ, maxQ, minQ]⟩
  intro h1 h2 h3 h4
  have hs0 : (0 : ℚ) ≤ clampQ 0 1 speed := le_clampQ _ _ _
  have hs1 : clampQ 0 1 speed ≤ 1 := clampQ_le _ _ _ (by norm_num)
  have ha : clampQ (-1) 1 angle = angle := by
    rcases le_total angle 1 with hle | hgt
    · rcases le_total (-1 : ℚ) angle with hge | hlt
      · exact clampQ_eq_self _ _ _ hge hle
      · exfalso
        have he : clampQ (-1) 1 angle = -1 := by
          unfold clampQ maxQ minQ
          split <;> split <;> linarith
        rw [he] at h2 h3
        linarith
    · exfalso
      have he : clampQ (-1) 1 angle = 1 := by
        unfold clampQ maxQ minQ
        split <;> split <;> linarith
      rw [he] at h1 h4
      linarith
  show clampQ 0 1 (clampQ 0 1 speed + clampQ (-1) 1 angle) -
      clampQ 0 1 (clampQ 0 1 speed - clampQ (-1) 1 angle) = 2 * angle
  rw [clampQ_eq_self _ _ _ h3 h4, clampQ_eq_self _ _ _ h1 h2, ha]
  ring

/-- Witness for C1: at `speed = 1/2`, `angle = 1/10` neither side saturates
and the differential-drive law `left - right = 2 * angle` holds. -/
theorem C1_move_forward_witness :
    (move_forward (1/2) (1/10)).left.magnitude -
      (move_forward (1/2) (1/10)).right.magnitude = 2 * (1/10) := by
  have h := C1_move_forward (1/2) (1/10)
  exact h.2.2.2.2.2.2.1 (by norm_num [clampQ, maxQ, minQ])
    (by norm_num [clampQ, maxQ, minQ]) (by norm_num [clampQ, maxQ, minQ])
    (by norm_num [clampQ, maxQ, minQ])

/-- C5: `move_backward` negates the commanded speed and then clamps the
negated value into `[0,1]`, which zeroes it for every positive commanded
speed: `move_backward(0.6, 0)` invokes the backward primitive on both
wheels with magnitude `0`, not `0.6` — the car does not move, contradicting
the module's own docstring and test driver. -/
theorem C5_move_backward_zero :
    move_backward (6/10) 0 = ⟨⟨Dir.backward, 0⟩, ⟨Dir.backward, 0⟩⟩ ∧
    move_backward (3/10) 0 = ⟨⟨Dir.backward, 0⟩, ⟨Dir.backward, 0⟩⟩ ∧
    move_backward 1 0 = ⟨⟨Dir.backward, 0⟩, ⟨Dir.backward, 0⟩⟩ := by
  norm_num [move_backward, clampQ, maxQ, minQ]

/-! ## Key input (`Step1-Data-Collection/data_collection_main.py`, key_press_module.py) -/

/-- The keys monitored by the control loop. -/
inductive Key where
  | RIGHT
  | LEFT
  | UP
  | DOWN
  | r
  | s
  | k
deriving DecidableEq

/-- `KEY_LIST` (data_collection_main.py, line 74): the fixed scan order of
`get_key_press`. -/
def keyList : List Key := [.RIGHT, .LEFT, .UP, .DOWN, .r, .s, .k]

/-- `get_key_press` (lines 101-117): scan `KEY_LIST` in order; the first key
whose status is pressed becomes `key_val`; if none is pressed, `key_val` is
left unchanged (the stale previous value persists). -/
def get_key_press (pressed : Key → Bool) (key_val : Option Key) : Option Key :=
  match keyList.find? pressed with
  | some key => some key
  | none => key_val

/-- `DEFAULT_SPEED = 1` (line 75). -/
def DEFAULT_SPEED : ℚ := 1

/-- `DEFAULT_ANGLE = 0.7` (line 76). -/
def DEFAULT_ANGLE : ℚ := 7/10

/-- The global movement-control variables of data_collection_main.py. -/
structure Controls where
  speed : ℚ
  angle : ℚ
  record : Nat
  done : Nat
  key_val : Option Key
  key_old : Option Key
deriving DecidableEq

/-- `update_movement_controls` (data_collection_main.py, lines 119-154):
the if/elif chain over `key_val`, the `key_val == key_old` debounce guard,
the `record`-toggle branch, and the final reset of `key_val`/`key_old`
whenever the current key is not `'r'`. -/
def update_movement_controls (c : Controls) : Controls :=
  let c1 :=
    if c.key_val = some Key.RIGHT then { c with angle := DEFAULT_ANGLE }
    else if c.key_val = some Key.LEFT then { c with angle := -(1/2) }
    else if c.key_val = some Key.UP then { c with speed := DEFAULT_SPEED, angle := 1/10 }
    else if c.key_val = some Key.DOWN then { c with speed := -DEFAULT_SPEED, angle := 1/10 }
    else if c.key_val = some Key.s then { c with speed := 0, angle := 0 }
    else if c.key_val = some Key.k then { c with done := c.done + 1 }
    else if c.key_val = c.key_old then c
    else if c.key_val = some Key.r then { c with key_old := c.key_val, record := c.record + 1 }
    else c
  if c1.key_val ≠ some Key.r then { c1 with key_val := none, key_old := none } else c1

/-! ## Data collection (`Step1-Data-Collection/data_collection_module.py`)

Image files are identified by the pair `(folder index, sample index)`:
the Python name `img_{len(img_list)}_{timestamp}` under `img{folder}` is
determined up to the wall-clock timestamp, which only adds uniqueness and
carries no information used anywhere else. -/

/-- The persistent fields of `DataCollector`. -/
structure DataCollector where
  folder_index : Nat
  img_list : List (Nat × Nat)
  speed_list : List ℚ
  angle_list : List ℚ
deriving DecidableEq

/-- `DataCollector.collect_data` (lines 80-99): capture one image into
`img_path` (the capture call `get_img` happens before any append), then
append the image reference, the speed and the angle to the three lists.
Returns the updated collector and the captured image's reference. -/
def collect_data (dc : DataCollector) (img_path : Nat) (speed angle : ℚ) :
    DataCollector × (Nat × Nat) :=
  let img_name : Nat × Nat := (img_path, dc.img_list.length)
  ({ dc with
      img_list := dc.img_list ++ [img_name],
      speed_list := dc.speed_list ++ [speed],
      angle_list := dc.angle_list ++ [angle] }, img_name)

/-- Row-wise pairing of the three column lists, as
`pd.DataFrame({'image': ..., 'speed': ..., 'angle': ...})` lays rows out:
row i is `(image[i], speed[i], angle[i])`, in list order. -/
def zipRows : List (Nat × Nat) → List ℚ → List ℚ → List ((Nat × Nat) × ℚ × ℚ)
  | img :: imgs, sp :: sps, an :: ans => (img, sp, an) :: zipRows imgs sps ans
  | _, _, _ => []

/-- `DataCollector.save_log` (lines 101-117): write the accumulated rows to
`log_{folder_index}.csv` with `index=False, header=False` — i.e. the file is
exactly the positional rows, no header. Modelled as the written file:
`(log index, rows)`. -/
def save_log (dc : DataCollector) : Nat × List ((Nat × Nat) × ℚ × ℚ) :=
  (dc.folder_index, zipRows dc.img_list dc.speed_list dc.angle_list)

/-! ## Folder allocation (`record == 1` branch, data_collection_main.py lines 184-190) -/

/-- Bounded linear scan for a folder index not present on storage. The
Python loop `while os.path.exists(img{folder_index}): folder_index += 1`
terminates at the first free index; at most `fs.card` of the candidates
`i, i+1, ...` are occupied, so `fs.card + 1` iterations always reach the
first free index and the bounded scan computes exactly the loop's result. -/
def scanFreeAux (fs : Finset Nat) : Nat → Nat → Nat
  | 0, i => i
  | fuel + 1, i => if i ∈ fs then scanFreeAux fs fuel (i + 1) else i

/-- The `while os.path.exists(...): folder_index += 1` scan, started at the
collector's last known `folder_index`. -/
def scanFree (fs : Finset Nat) (i : Nat) : Nat := scanFreeAux fs (fs.card + 1) i

/-- The whole `record == 1` branch body as it touches storage: scan upward
from the last known index for a free folder name, then `os.makedirs` it.
Returns the chosen index and the updated storage contents. -/
def allocateFolder (fs : Finset Nat) (folder_index : Nat) : Nat × Finset Nat :=
  let i := scanFree fs folder_index
  (i, insert i fs)

/-! ## The control loop (`main`, data_collection_main.py lines 156-209) -/

/-- The complete mutable state of one `main()` process: the global control
variables, the steering-correction flag, the data collector, the storage
contents (`fs` = set of existing `img{i}` folder indices), the `new_path`
local, the capture and written-log history, and the release counters of the
hardware collaborators. -/
structure CarState where
  done : Nat
  record : Nat
  key_val : Option Key
  key_old : Option Key
  speed : ℚ
  angle : ℚ
  rseh : Nat
  dc : DataCollector
  fs : Finset Nat
  new_path : Option Nat
  captures : List (Nat × Nat)
  logs : List (Nat × List ((Nat × Nat) × ℚ × ℚ))
  running : Bool
  motorReleases : Nat
  cameraReleases : Nat
  steeringDetaches : Nat
deriving DecidableEq

/-- Observable events of one loop iteration: the motor command, the servo
commands in call order, the DriveCommand `(speed, angle)` in effect, and
flags for the folder-creation, collect, flush, toggle and release events. -/
structure TickOut where
  motorCmd : ℚ
  servoCmds : List ℚ
  driveCmd : ℚ × ℚ
  folderCreated : Bool
  collected : Bool
  flushed : Bool
  toggled : Bool
  released : Bool
deriving DecidableEq

/-- One iteration of the `while True` loop body (lines 169-209), in source
order: `angle = 0`; `get_key_press()`; `update_movement_controls()`;
`motor_controller.move(speed)` (which clamps to `[-1,1]`); the
`right_steering_error_handling` block and `steering_controller.set_angle(angle)`
(`set_angle` clamps to `[-1,1]`); the `record == 1` folder-allocation branch
(which does `record += 1`); then `if record == 2: collect_data`
`elif record == 3: record = 0; save_log(); clear the three lists`; finally
the `done != 0` branch: stop/release motor, `set_angle(0)`, detach steering,
release camera, `break`. -/
def tick (σ : CarState) (pressed : Key → Bool) : CarState × TickOut :=
  let kv := get_key_press pressed σ.key_val
  let c := update_movement_controls
    { speed := σ.speed, angle := 0, record := σ.record, done := σ.done,
      key_val := kv, key_old := σ.key_old }
  let motorCmd := clampQ (-1) 1 c.speed
  let fixup : Bool := decide (σ.rseh = 1) && decide (c.angle = 0)
  let rseh2 : Nat := if c.angle < 0 then 1 else if fixup then 0 else σ.rseh
  let createdB : Bool := decide (c.record = 1)
  let fi := if createdB then scanFree σ.fs σ.dc.folder_index else σ.dc.folder_index
  let fs1 := if createdB then insert (scanFree σ.fs σ.dc.folder_index) σ.fs else σ.fs
  let np1 := if createdB then some (scanFree σ.fs σ.dc.folder_index) else σ.new_path
  let record1 := if createdB then c.record + 1 else c.record
  let dc1 : DataCollector := { σ.dc with folder_index := fi }
  let collectB : Bool := decide (record1 = 2)
  let dc2 := if collectB then (collect_data dc1 (np1.getD 0) c.speed c.angle).1 else dc1
  let cap1 := if collectB
    then σ.captures ++ [(collect_data dc1 (np1.getD 0) c.speed c.angle).2]
    else σ.captures
  let flushB : Bool := !collectB && decide (record1 = 3)
  let record2 := if flushB then 0 else record1
  let logs1 := if flushB then σ.logs ++ [save_log dc2] else σ.logs
  let dc3 := if flushB
    then { dc2 with img_list := [], speed_list := [], angle_list := [] }
    else dc2
  let doneB : Bool := decide (c.done ≠ 0)
  let servoCmds :=
    (if fixup then [clampQ (-1) 1 DEFAULT_ANGLE] else []) ++
    [clampQ (-1) 1 c.angle] ++
    (if doneB then [clampQ (-1) 1 0] else [])
  ({ done := c.done, record := record2, key_val := c.key_val, key_old := c.key_old,
     speed := c.speed, angle := c.angle, rseh := rseh2, dc := dc3, fs := fs1,
     new_path := np1, captures := cap1, logs := logs1,
     running := if doneB then false else σ.running,
     motorReleases := if doneB then σ.motorReleases + 1 else σ.motorReleases,
     cameraReleases := if doneB then σ.cameraReleases + 1 else σ.cameraReleases,
     steeringDetaches := if doneB then σ.steeringDetaches + 1 else σ.steeringDetaches },
   { motorCmd := motorCmd, servoCmds := servoCmds, driveCmd := (c.speed, c.angle),
     folderCreated := createdB, collected := collectB, flushed := flushB,
     toggled := decide (c.record ≠ σ.record), released := doneB })

/-- Run the loop over a list of per-tick raw inputs (`pressed` maps each key
to its polled status that tick), collecting the tick outputs. The loop stops
ticking once `running` is false (the `break` of the `done != 0` branch). -/
def run : CarState → List (Key → Bool) → CarState × List TickOut
  | σ, [] => (σ, [])
  | σ, p :: ps =>
    if σ.running then
      let t := tick σ p
      let rest := run t.1 ps
      (rest.1, t.2 :: rest.2)
    else (σ, [])

/-- Process start state: the module-level initializations of
data_collection_main.py (lines 79-86) and `DataCollector.data_collection_init`
(lines 60-78, `folder_index = 0`, empty lists). `fs0` is whatever folders
already exist under `data_collected` on storage. -/
def initState (fs0 : Finset Nat) : CarState :=
  { done := 0, record := 0, key_val := none, key_old := none, speed := 0, angle := 0,
    rseh := 0,
    dc := { folder_index := 0, img_list := [], speed_list := [], angle_list := [] },
    fs := fs0, new_path := none, captures := [], logs := [], running := true,
    motorReleases := 0, cameraReleases := 0, steeringDetaches := 0 }

/-! Raw-input shapes used in concrete traces. -/

/-- No key pressed this tick. -/
def pressNone : Key → Bool := fun _ => false

/-- Only the toggle-record key `'r'` pressed. -/
def pressR : Key → Bool
  | .r => true
  | _ => false

/-- Only the stop key `'s'` pressed. -/
def pressS : Key → Bool
  | .s => true
  | _ => false

/-- Only `UP` pressed. -/
def pressUP : Key → Bool
  | .UP => true
  | _ => false

/-- Only `DOWN` pressed. -/
def pressDOWN : Key → Bool
  | .DOWN => true
  | _ => false

/-- Only `RIGHT` pressed. -/
def pressRIGHT : Key → Bool
  | .RIGHT => true
  | _ => false

/-- Only `LEFT` pressed. -/
def pressLEFT : Key → Bool
  | .LEFT => true
  | _ => false

/-- `'r'` and `'s'` pressed simultaneously. -/
def pressRS : Key → Bool
  | .r => true
  | .s => true
  | _ => false

/-! ## Properties of the folder scan -/

theorem scanFreeAux_ge (fs : Finset Nat) :
    ∀ fuel i, i ≤ scanFreeAux fs fuel i := by
  intro fuel
  induction fuel with
  | zero => intro i; simp [scanFreeAux]
  | succ n ih =>
    intro i
    simp only [scanFreeAux]
    split
    · exact le_trans (Nat.le_succ i) (ih (i + 1))
    · exact le_refl i

theorem scanFreeAux_min (fs : Finset Nat) :
    ∀ fuel i j, i ≤ j → j < scanFreeAux fs fuel i → j ∈ fs := by
  intro fuel
  induction fuel with
  | zero =>
    intro i j hij hlt
    simp [scanFreeAux] at hlt
    omega
  | succ n ih =>
    intro i j hij hlt
    simp only [scanFreeAux] at hlt
    by_cases hmem : i ∈ fs
    · rw [if_pos hmem] at hlt
      rcases Nat.eq_or_lt_of_le hij with heq | hgt
      · exact heq ▸ hmem
      · exact ih (i + 1) j hgt hlt
    · rw [if_neg hmem] at hlt
      omega

theorem scanFreeAux_not_mem (fs : Finset Nat) :
    ∀ fuel i, (∃ j, i ≤ j ∧ j < i + fuel ∧ j ∉ fs) → scanFreeAux fs fuel i ∉ fs := by
  intro fuel
  induction fuel with
  | zero =>
    intro i ⟨j, hij, hlt, _⟩
    omega
  | succ n ih =>
    intro i ⟨j, hij, hlt, hnm⟩
    simp only [scanFreeAux]
    by_cases hmem : i ∈ fs
    · rw [if_pos hmem]
      refine ih (i + 1) ⟨j, ?_, by omega, hnm⟩
      rcases Nat.eq_or_lt_of_le hij with heq | hgt
      · exact absurd (heq ▸ hmem) hnm
      · omega
    · rw [if_neg hmem]
      exact hmem

theorem exists_free_index (fs : Finset Nat) (i : Nat) :
    ∃ j, i ≤ j ∧ j < i + (fs.card + 1) ∧ j ∉ fs := by
  by_contra hcon
  push_neg at hcon
  have hsub : Finset.Icc i (i + fs.card) ⊆ fs := by
    intro j hj
    rw [Finset.mem_Icc] at hj
    exact hcon j hj.1 (by omega)
  have hcard := Finset.card_le_card hsub
  rw [Nat.card_Icc] at hcard
  omega

theorem scanFree_not_mem (fs : Finset Nat) (i : Nat) : scanFree fs i ∉ fs :=
  scanFreeAux_not_mem fs (fs.card + 1) i (exists_free_index fs i)

theorem scanFree_ge (fs : Finset Nat) (i : Nat) : i ≤ scanFree fs i :=
  scanFreeAux_ge fs (fs.card + 1) i

theorem scanFree_min (fs : Finset Nat) (i j : Nat) (h1 : i ≤ j)
    (h2 : j < scanFree fs i) : j ∈ fs :=
  scanFreeAux_min fs (fs.card + 1) i j h1 h2

theorem scanFree_gt_of_mem (fs : Finset Nat) (i : Nat) (h : i ∈ fs) :
    i < scanFree fs i := by
  rcases Nat.eq_or_lt_of_le (scanFree_ge fs i) with heq | hgt
  · exact absurd (heq ▸ h) (scanFree_not_mem fs i)
  · exact hgt

/-- C4 (amended): the folder index chosen for a session is the smallest
index not on storage, scanning upward from the collector's last known
index (which is retained across sessions and never reset); hence a second
session's index is strictly greater than the first session's whenever the
first session's folder still exists on storage at the second allocation.
(If that folder has been deleted externally, the scan stops at it again and
the index is reused — see the counterexample.) -/
theorem C4_folder_index (fs fs2 : Finset Nat) (start : Nat)
    (hpersist : (allocateFolder fs start).1 ∈ fs2) :
    start ≤ (allocateFolder fs start).1 ∧
    (allocateFolder fs start).1 ∉ fs ∧
    (∀ j, start ≤ j → j < (allocateFolder fs start).1 → j ∈ fs) ∧
    (allocateFolder fs start).1 < (allocateFolder fs2 (allocateFolder fs start).1).1 ∧
    (allocateFolder fs2 (allocateFolder fs start).1).1 ∉ fs2 := by
  simp only [allocateFolder] at hpersist ⊢
  exact ⟨scanFree_ge fs start, scanFree_not_mem fs start,
    fun j h1 h2 => scanFree_min fs start j h1 h2,
    scanFree_gt_of_mem fs2 (scanFree fs start) hpersist,
    scanFree_not_mem fs2 (scanFree fs start)⟩

/-- Witness for C4: on empty storage the first session takes folder 0;
with that folder still present, the second allocation takes a strictly
larger index. -/
theorem C4_folder_index_witness :
    (allocateFolder ∅ 0).1 < (allocateFolder {0} (allocateFolder ∅ 0).1).1 :=
  (C4_folder_index ∅ {0} 0 (by decide)).2.2.2.1

/-- C4 counterexample: two consecutive sessions on a storage where the first
session's folder is deleted in between. The first session allocates index 0;
after the external deletion, the second scan (starting from the retained
`folder_index = 0`) finds 0 free again and reuses it — the second index is
not strictly greater, refuting the claim's "never reused even if the folder
is deleted" part. -/
theorem C4_counterexample :
    (allocateFolder ∅ 0).1 = 0 ∧
    (allocateFolder ∅ 0).2.erase (allocateFolder ∅ 0).1 = ∅ ∧
    (allocateFolder ((allocateFolder ∅ 0).2.erase (allocateFolder ∅ 0).1)
        (allocateFolder ∅ 0).1).1 = 0 := by
  decide

/-! ## C7: the camera collaborator of the QUIT path -/

/-- The class names defined by `picamera_module.py`. -/
def picameraModuleClasses : List String := ["PiCameraController"]

/-- The methods defined on `PiCameraController` (picamera_module.py,
lines 37-89), besides the constructor. -/
def piCameraControllerMethods : List String := ["pi_cam_init", "get_img"]

/-- The class name `data_collection_main.py` imports from
`picamera_module` (line 71). -/
def mainCameraImportName : String := "CameraController"

/-- The method `main`'s termination branch calls on the camera controller
(data_collection_main.py, line 208). -/
def quitBranchCameraCall : String := "release"

/-- C7: the QUIT path of `main` calls `camera_controller.release()`, but the
camera class of `picamera_module.py` defines no `release` method — and the
name `main` imports, `CameraController`, is not defined by that module at
all. On the failing input (the `'k'` key at any recording state) the release
sequence cannot succeed as specified. -/
theorem C7_camera_release_missing :
    quitBranchCameraCall ∉ piCameraControllerMethods ∧
    mainCameraImportName ∉ picameraModuleClasses := by
  decide

/-! ## C8: input priority order -/

/-- Position of each key in `KEY_LIST`, i.e. its priority rank
(lower scans first). -/
def keyIdx : Key → Nat
  | .RIGHT => 0
  | .LEFT => 1
  | .UP => 2
  | .DOWN => 3
  | .r => 4
  | .s => 5
  | .k => 6

/-- Modelled from the spec's words, for comparison only: the priority order
the specification asserts, `RIGHT > LEFT > UP > DOWN > STOP('s') > QUIT('k')
> TOGGLE_RECORD('r')`. -/
def specKeyOrder : List Key := [.RIGHT, .LEFT, .UP, .DOWN, .s, .k, .r]

/-- C8 counterexample: with `'r'` and `'s'` pressed simultaneously, the
code's scan (KEY_LIST order) selects `'r'` (TOGGLE_RECORD), while the
claimed priority order would select `'s'` (STOP). -/
theorem C8_counterexample :
    get_key_press pressRS none = some Key.r ∧
    specKeyOrder.find? pressRS = some Key.s ∧
    Key.r ≠ Key.s := by
  decide

/-- C8 (amended): each tick at most one command is derived, by first match
over the fixed KEY_LIST priority order `RIGHT > LEFT > UP > DOWN >
TOGGLE_RECORD('r') > STOP('s') > QUIT('k')`: whenever the scan selects a
key, that key is pressed and every key of strictly higher priority is
unpressed. -/
theorem C8_priority (pressed : Key → Bool) (key : Key)
    (h : get_key_press pressed none = some key) :
    pressed key = true ∧
    (∀ k2, keyIdx k2 < keyIdx key → pressed k2 = false) ∧
    keyList = [Key.RIGHT, Key.LEFT, Key.UP, Key.DOWN, Key.r, Key.s, Key.k] := by
  have hf : keyList.find? pressed = some key := by
    revert h
    unfold get_key_press
    cases hfind : keyList.find? pressed <;> simp_all
  refine ⟨List.find?_some hf, ?_, rfl⟩
  intro k2 hlt
  revert hlt
  cases hR : pressed Key.RIGHT <;> cases hL : pressed Key.LEFT <;>
    cases hU : pressed Key.UP <;> cases hD : pressed Key.DOWN <;>
    cases hr2 : pressed Key.r <;> cases hs2 : pressed Key.s <;>
    cases hk2 : pressed Key.k <;>
    simp only [keyList, List.find?, hR, hL, hU, hD, hr2, hs2, hk2] at hf <;>
    intro hlt <;>
    (try exact Option.noConfusion hf) <;>
    (rw [Option.some_inj] at hf
     subst hf
     revert hlt
     cases k2 <;> simp_all [keyIdx])

/-- Witness for C8: with `'r'` and `'s'` pressed, the selected key `'r'` is
indeed pressed. -/
theorem C8_priority_witness : pressRS Key.r = true :=
  (C8_priority pressRS Key.r (by decide)).1

/-! ## Run helpers and concrete tick evaluations -/

theorem run_nil (σ : CarState) : run σ [] = (σ, []) := rfl

theorem run_cons (σ : CarState) (p : Key → Bool) (ps : List (Key → Bool))
    (h : σ.running = true) :
    run σ (p :: ps) =
      ((run (tick σ p).1 ps).1, (tick σ p).2 :: (run (tick σ p).1 ps).2) := by
  simp [run, h]

/-- State reached after the session-opening `'r'` tick followed by `j`
UP-ticks, starting a fresh process on empty storage. -/
def c6MidState (j : Nat) : CarState :=
  { done := 0, record := 2,
    key_val := if j = 0 then some Key.r else none,
    key_old := if j = 0 then some Key.r else none,
    speed := if j = 0 then 0 else 1,
    angle := if j = 0 then 0 else 1/10,
    rseh := 0,
    dc := { folder_index := 0,
            img_list := (0, 0) :: (List.range j).map (fun t => (0, t + 1)),
            speed_list := 0 :: List.replicate j 1,
            angle_list := 0 :: List.replicate j (1/10) },
    fs := {0}, new_path := some 0,
    captures := (0, 0) :: (List.range j).map (fun t => (0, t + 1)),
    logs := [], running := true,
    motorReleases := 0, cameraReleases := 0, steeringDetaches := 0 }

/-- Output of the session-opening `'r'` tick from the start state. -/
def outR0 : TickOut :=
  { motorCmd := 0, servoCmds := [0], driveCmd := (0, 0),
    folderCreated := true, collected := true, flushed := false,
    toggled := true, released := false }

/-- Output of an UP tick while collecting. -/
def outUP : TickOut :=
  { motorCmd := 1, servoCmds := [1/10], driveCmd := (1, 1/10),
    folderCreated := false, collected := true, flushed := false,
    toggled := false, released := false }

theorem tick_initR : tick (initState ∅) pressR = (c6MidState 0, outR0) := by
  norm_num +decide [tick, get_key_press, update_movement_controls, keyList,
    List.find?, pressR, collect_data, save_log, scanFree, scanFreeAux,
    clampQ, maxQ, minQ, initState, c6MidState, outR0, DEFAULT_ANGLE, DEFAULT_SPEED]

/-- A collect tick with DriveCommand `(0, 0)` (held stale `'r'`, a no-key
tick inside a session, or an `'s'` tick inside a session). -/
def outCollect0 : TickOut :=
  { motorCmd := 0, servoCmds := [0], driveCmd := (0, 0),
    folderCreated := false, collected := true, flushed := false,
    toggled := false, released := false }

/-- State after the trace `[r, none]`: the stale `'r'` persists in both
`key_val` and `key_old`, while the session keeps collecting. -/
def c2NState : CarState :=
  { done := 0, record := 2, key_val := some Key.r, key_old := some Key.r,
    speed := 0, angle := 0, rseh := 0,
    dc := { folder_index := 0, img_list := [(0, 0), (0, 1)],
            speed_list := [0, 0], angle_list := [0, 0] },
    fs := {0}, new_path := some 0, captures := [(0, 0), (0, 1)],
    logs := [], running := true,
    motorReleases := 0, cameraReleases := 0, steeringDetaches := 0 }

/-- State after the trace `[r, none, r]`: the renewed `'r'` press was
swallowed by the `key_val == key_old` guard; still collecting. -/
def c2NState2 : CarState :=
  { done := 0, record := 2, key_val := some Key.r, key_old := some Key.r,
    speed := 0, angle := 0, rseh := 0,
    dc := { folder_index := 0, img_list := [(0, 0), (0, 1), (0, 2)],
            speed_list := [0, 0, 0], angle_list := [0, 0, 0] },
    fs := {0}, new_path := some 0, captures := [(0, 0), (0, 1), (0, 2)],
    logs := [], running := true,
    motorReleases := 0, cameraReleases := 0, steeringDetaches := 0 }

/-- State after the trace `[r, s]`: the `'s'` tick cleared the key latch
(`key_val != 'r'` resets both) while the session keeps collecting. -/
def c2SState : CarState :=
  { done := 0, record := 2, key_val := none, key_old := none,
    speed := 0, angle := 0, rseh := 0,
    dc := { folder_index := 0, img_list := [(0, 0), (0, 1)],
            speed_list := [0, 0], angle_list := [0, 0] },
    fs := {0}, new_path := some 0, captures := [(0, 0), (0, 1)],
    logs := [], running := true,
    motorReleases := 0, cameraReleases := 0, steeringDetaches := 0 }

/-- State after the trace `[r, s, r]`: the fresh `'r'` toggled the session
off; the two-sample log was flushed and the buffers cleared. -/
def c2SFinal : CarState :=
  { done := 0, record := 0, key_val := some Key.r, key_old := some Key.r,
    speed := 0, angle := 0, rseh := 0,
    dc := { folder_index := 0, img_list := [], speed_list := [], angle_list := [] },
    fs := {0}, new_path := some 0, captures := [(0, 0), (0, 1)],
    logs := [(0, [((0, 0), 0, 0), ((0, 1), 0, 0)])], running := true,
    motorReleases := 0, cameraReleases := 0, steeringDetaches := 0 }

/-- Output of a flush tick with DriveCommand `(0, 0)`. -/
def outFlush0 : TickOut :=
  { motorCmd := 0, servoCmds := [0], driveCmd := (0, 0),
    folderCreated := false, collected := false, flushed := true,
    toggled := true, released := false }

theorem tick_c6Mid0_pressNone :
    tick (c6MidState 0) pressNone = (c2NState, outCollect0) := by
  norm_num +decide [tick, get_key_press, update_movement_controls, keyList,
    List.find?, pressNone, collect_data, c6MidState, c2NState, outCollect0,
    clampQ, maxQ, minQ, DEFAULT_ANGLE, DEFAULT_SPEED]

theorem tick_c2N_pressR :
    tick c2NState pressR = (c2NState2, outCollect0) := by
  norm_num +decide [tick, get_key_press, update_movement_controls, keyList,
    List.find?, pressR, collect_data, c2NState, c2NState2, outCollect0,
    clampQ, maxQ, minQ, DEFAULT_ANGLE, DEFAULT_SPEED]

theorem tick_c6Mid0_pressS :
    tick (c6MidState 0) pressS = (c2SState, outCollect0) := by
  norm_num +decide [tick, get_key_press, update_movement_controls, keyList,
    List.find?, pressS, collect_data, c6MidState, c2SState, outCollect0,
    clampQ, maxQ, minQ, DEFAULT_ANGLE, DEFAULT_SPEED]

theorem tick_c2S_pressR :
    tick c2SState pressR = (c2SFinal, outFlush0) := by
  norm_num +decide [tick, get_key_press, update_movement_controls, keyList,
    List.find?, pressR, collect_data, save_log, zipRows, c2SState, c2SFinal,
    outFlush0, clampQ, maxQ, minQ, DEFAULT_ANGLE, DEFAULT_SPEED]

/-- State after the trace `[UP]` from a fresh start (not recording). -/
def c3UState : CarState :=
  { done := 0, record := 0, key_val := none, key_old := none,
    speed := 1, angle := 1/10, rseh := 0,
    dc := { folder_index := 0, img_list := [], speed_list := [], angle_list := [] },
    fs := ∅, new_path := none, captures := [], logs := [], running := true,
    motorReleases := 0, cameraReleases := 0, steeringDetaches := 0 }

/-- State after the trace `[UP, RIGHT]`. -/
def c3URState : CarState :=
  { done := 0, record := 0, key_val := none, key_old := none,
    speed := 1, angle := 7/10, rseh := 0,
    dc := { folder_index := 0, img_list := [], speed_list := [], angle_list := [] },
    fs := ∅, new_path := none, captures := [], logs := [], running := true,
    motorReleases := 0, cameraReleases := 0, steeringDetaches := 0 }

/-- State after the trace `[UP, RIGHT, s]`. -/
def c3URSState : CarState :=
  { done := 0, record := 0, key_val := none, key_old := none,
    speed := 0, angle := 0, rseh := 0,
    dc := { folder_index := 0, img_list := [], speed_list := [], angle_list := [] },
    fs := ∅, new_path := none, captures := [], logs := [], running := true,
    motorReleases := 0, cameraReleases := 0, steeringDetaches := 0 }

/-- Output of an UP tick while not recording. -/
def outUPIdle : TickOut :=
  { motorCmd := 1, servoCmds := [1/10], driveCmd := (1, 1/10),
    folderCreated := false, collected := false, flushed := false,
    toggled := false, released := false }

/-- Output of a RIGHT tick (speed latched at 1) while not recording. -/
def outRIGHTIdle : TickOut :=
  { motorCmd := 1, servoCmds := [7/10], driveCmd := (1, 7/10),
    folderCreated := false, collected := false, flushed := false,
    toggled := false, released := false }

/-- Output of an `'s'` tick while not recording. -/
def outSIdle : TickOut :=
  { motorCmd := 0, servoCmds := [0], driveCmd := (0, 0),
    folderCreated := false, collected := false, flushed := false,
    toggled := false, released := false }

theorem tick_init_pressUP :
    tick (initState ∅) pressUP = (c3UState, outUPIdle) := by
  norm_num +decide [tick, get_key_press, update_movement_controls, keyList,
    List.find?, pressUP, initState, c3UState, outUPIdle,
    clampQ, maxQ, minQ, DEFAULT_ANGLE, DEFAULT_SPEED]

theorem tick_c3U_pressRIGHT :
    tick c3UState pressRIGHT = (c3URState, outRIGHTIdle) := by
  norm_num +decide [tick, get_key_press, update_movement_controls, keyList,
    List.find?, pressRIGHT, c3UState, c3URState, outRIGHTIdle,
    clampQ, maxQ, minQ, DEFAULT_ANGLE, DEFAULT_SPEED]

theorem tick_c3UR_pressS :
    tick c3URState pressS = (c3URSState, outSIdle) := by
  norm_num +decide [tick, get_key_press, update_movement_controls, keyList,
    List.find?, pressS, c3URState, c3URSState, outSIdle,
    clampQ, maxQ, minQ, DEFAULT_ANGLE, DEFAULT_SPEED]

/-- One UP tick inside a session advances `c6MidState j` to
`c6MidState (j+1)`. -/
theorem c6_step (j : Nat) :
    tick (c6MidState j) pressUP = (c6MidState (j + 1), outUP) := by
  norm_num +decide [tick, get_key_press, update_movement_controls, keyList,
    List.find?, pressUP, collect_data, c6MidState, outUP,
    clampQ, maxQ, minQ, DEFAULT_ANGLE, DEFAULT_SPEED,
    List.range_succ, List.replicate_succ', List.length_map, List.length_range]

/-- Final state of the C6 trace: after the closing `'r'` tick the
`j+1`-sample log file is written and the buffers are cleared. -/
def c6FinalState (j : Nat) : CarState :=
  { done := 0, record := 0, key_val := some Key.r, key_old := some Key.r,
    speed := 1, angle := 0, rseh := 0,
    dc := { folder_index := 0, img_list := [], speed_list := [], angle_list := [] },
    fs := {0}, new_path := some 0,
    captures := (0, 0) :: (List.range j).map (fun t => (0, t + 1)),
    logs := [(0, zipRows ((0, 0) :: (List.range j).map (fun t => (0, t + 1)))
                         (0 :: List.replicate j 1)
                         (0 :: List.replicate j (1/10)))],
    running := true,
    motorReleases := 0, cameraReleases := 0, steeringDetaches := 0 }

/-- Output of the session-closing `'r'` tick of the C6 trace (speed still
latched at 1, angle re-zeroed). -/
def outFlushC6 : TickOut :=
  { motorCmd := 1, servoCmds := [0], driveCmd := (1, 0),
    folderCreated := false, collected := false, flushed := true,
    toggled := true, released := false }

/-- The closing `'r'` tick flushes the session opened `j+1` UP-ticks ago. -/
theorem c6_final (j : Nat) :
    tick (c6MidState (j + 1)) pressR = (c6FinalState (j + 1), outFlushC6) := by
  norm_num +decide [tick, get_key_press, update_movement_controls, keyList,
    List.find?, pressR, save_log, c6MidState, c6FinalState, outFlushC6,
    clampQ, maxQ, minQ, DEFAULT_ANGLE, DEFAULT_SPEED]

/-- Running `m+1` UP-ticks and a closing `'r'` tick from any mid-session
state of the C6 trace. -/
theorem c6_run (m : Nat) : ∀ i,
    run (c6MidState i) (List.replicate (m + 1) pressUP ++ [pressR]) =
      (c6FinalState (i + m + 1), List.replicate (m + 1) outUP ++ [outFlushC6]) := by
  induction m with
  | zero =>
    intro i
    simp only [List.replicate_succ, List.replicate_zero, List.cons_append,
      List.nil_append]
    rw [run_cons _ _ _ rfl, c6_step]
    simp only
    rw [run_cons _ _ _ rfl, c6_final]
    simp [run_nil]
  | succ n ih =>
    intro i
    rw [List.replicate_succ, List.cons_append, run_cons _ _ _ rfl, c6_step]
    simp only
    rw [ih (i + 1)]
    have harith : i + 1 + n + 1 = i + (n + 1) + 1 := by omega
    rw [harith]
    simp [List.replicate_succ]

/-! ## Symbolic single-tick lemmas for the toggle debounce -/

/-- The idle, unlatched loop state: not recording, no stale key, not
terminating. -/
def goodIdle (σ : CarState) : Prop :=
  σ.record = 0 ∧ σ.key_val = none ∧ σ.key_old = none ∧ σ.done = 0 ∧
    σ.running = true

/-- The collecting state reached by holding `'r'`: session open, the toggle
key latched in both `key_val` and `key_old`. -/
def activeHeld (σ : CarState) : Prop :=
  σ.record = 2 ∧ σ.key_val = some Key.r ∧ σ.key_old = some Key.r ∧
    σ.done = 0 ∧ σ.running = true

/-- A fresh `'r'` press in the idle unlatched state opens a session
(creates the folder) and lands in the latched collecting state. -/
theorem tick_goodIdle_pressR (σ : CarState) (h : goodIdle σ) :
    (tick σ pressR).2.folderCreated = true ∧ activeHeld (tick σ pressR).1 := by
  obtain ⟨h1, h2, h3, h4, h5⟩ := h
  simp +decide [tick, get_key_press, update_movement_controls, keyList,
    List.find?, pressR, activeHeld, h1, h2, h3, h4, h5]

/-- A held `'r'` in the latched collecting state is swallowed by the
`key_val == key_old` guard: no folder is created and the latched collecting
state persists. -/
theorem tick_activeHeld_pressR (σ : CarState) (h : activeHeld σ) :
    (tick σ pressR).2.folderCreated = false ∧ activeHeld (tick σ pressR).1 := by
  obtain ⟨h1, h2, h3, h4, h5⟩ := h
  simp +decide [tick, get_key_press, update_movement_controls, keyList,
    List.find?, pressR, activeHeld, h1, h2, h3, h4, h5]

/-- Holding `'r'` from the latched collecting state never creates another
folder. -/
theorem run_activeHeld_countP (m : Nat) : ∀ σ, activeHeld σ →
    ((run σ (List.replicate m pressR)).2.countP (fun o => o.folderCreated)) = 0 := by
  induction m with
  | zero => intro σ _; simp [run_nil]
  | succ n ih =>
    intro σ h
    have hstep := tick_activeHeld_pressR σ h
    rw [List.replicate_succ, run_cons _ _ _ h.2.2.2.2]
    simp only [List.countP_cons, hstep.1]
    simp [ih (tick σ pressR).1 hstep.2]

/-! ## List helpers for the session-flush accounting -/

theorem zipRows_length : ∀ (imgs : List (Nat × Nat)) (sps ans : List ℚ),
    imgs.length = sps.length → sps.length = ans.length →
    (zipRows imgs sps ans).length = imgs.length := by
  intro imgs
  induction imgs with
  | nil => intro sps ans h1 h2; simp [zipRows]
  | cons a tl ih =>
    intro sps ans h1 h2
    cases sps with
    | nil => simp at h1
    | cons b bs =>
      cases ans with
      | nil => simp at h2
      | cons c cs =>
        simp only [zipRows, List.length_cons]
        rw [ih bs cs (by simpa using h1) (by simpa using h2)]

theorem zipRows_map_snd : ∀ (imgs : List (Nat × Nat)) (sps ans : List ℚ),
    imgs.length = sps.length → sps.length = ans.length →
    (zipRows imgs sps ans).map (fun row => row.2) = sps.zip ans := by
  intro imgs
  induction imgs with
  | nil =>
    intro sps ans h1 h2
    cases sps with
    | nil => simp [zipRows]
    | cons b bs => simp at h1
  | cons a tl ih =>
    intro sps ans h1 h2
    cases sps with
    | nil => simp at h1
    | cons b bs =>
      cases ans with
      | nil => simp at h2
      | cons c cs =>
        simp only [zipRows, List.map_cons, List.zip_cons_cons]
        rw [ih bs cs (by simpa using h1) (by simpa using h2)]

theorem replicate_zip_replicate {α β : Type} (x : α) (y : β) :
    ∀ n, (List.replicate n x).zip (List.replicate n y) = List.replicate n (x, y) := by
  intro n
  induction n with
  | zero => rfl
  | succ m ih => simp [List.replicate_succ, ih]

theorem countP_replicate {α : Type} (p : α → Bool) (a : α) :
    ∀ n, (List.replicate n a).countP p = if p a then n else 0 := by
  intro n
  induction n with
  | zero => simp
  | succ m ih =>
    rw [List.replicate_succ, List.countP_cons, ih]
    split_ifs <;> simp_all

theorem filter_replicate_of_true {α : Type} (p : α → Bool) (a : α)
    (h : p a = true) :
    ∀ n, (List.replicate n a).filter p = List.replicate n a := by
  intro n
  induction n with
  | zero => rfl
  | succ m ih =>
    rw [List.replicate_succ, List.filter_cons, h]
    simp [ih]

theorem map_fst_session_captures : ∀ j : Nat,
    (((0, 0) :: (List.range j).map (fun t => (0, t + 1))).map Prod.fst) =
      List.replicate (j + 1) 0 := by
  intro j
  have hlen :
      (((0, 0) :: (List.range j).map (fun t => (0, t + 1))).map Prod.fst).length
        = j + 1 := by simp
  rw [← hlen, List.eq_replicate_length]
  intro b hb
  simp only [List.map_cons, List.map_map, List.mem_cons, List.mem_map,
    Function.comp] at hb
  rcases hb with rfl | ⟨t, _, rfl⟩ <;> rfl

/-! ## C2: toggle debounce -/

/-- C2 counterexample: the trace `'r'` held, released to no key, then `'r'`
pressed again. Because `get_key_press` leaves `key_val` unchanged on a
no-key tick, the stale `'r'` stays latched and the renewed press toggles
nothing: only one folder is ever created, the record state remains 2
(collecting), no log is flushed, and the third tick's toggle flag is
false — refuting the claim that raw input returning to none re-arms the
toggle. -/
theorem C2_counterexample :
    ((run (initState ∅) [pressR, pressNone, pressR]).2.map (fun o => o.toggled)) =
      [true, false, false] ∧
    ((run (initState ∅) [pressR, pressNone, pressR]).2.countP
      (fun o => o.folderCreated)) = 1 ∧
    (run (initState ∅) [pressR, pressNone, pressR]).1.record = 2 ∧
    (run (initState ∅) [pressR, pressNone, pressR]).1.logs = [] := by
  rw [run_cons _ _ _ rfl, tick_initR]
  simp only
  rw [run_cons _ _ _ rfl, tick_c6Mid0_pressNone]
  simp only
  rw [run_cons _ _ _ rfl, tick_c2N_pressR]
  simp [run_nil, outR0, outCollect0, c2NState2]

/-- C2 (amended): starting from the idle state with no toggle latched,
holding `'r'` for N ≥ 1 consecutive ticks produces exactly one
recording-start transition (exactly one session folder is created, not one
per tick). A fresh press starts a new toggle only after a tick on which a
different key was matched (which clears the latch): on the trace
`[r, s, r]` the third tick toggles again and flushes the session.
(Raw input returning to none does not clear the latch — see the
counterexample.) -/
theorem C2_toggle_debounce (σ : CarState) (h : goodIdle σ) (N : Nat)
    (hN : 1 ≤ N) :
    ((run σ (List.replicate N pressR)).2.countP (fun o => o.folderCreated)) = 1 ∧
    ((run (initState ∅) [pressR, pressS, pressR]).2.map (fun o => o.toggled)) =
      [true, false, true] ∧
    (run (initState ∅) [pressR, pressS, pressR]).1.logs.length = 1 := by
  refine ⟨?_, ?_, ?_⟩
  · obtain ⟨n, rfl⟩ : ∃ n, N = n + 1 := ⟨N - 1, by omega⟩
    rw [List.replicate_succ, run_cons _ _ _ h.2.2.2.2]
    have hstep := tick_goodIdle_pressR σ h
    have hcount := run_activeHeld_countP n (tick σ pressR).1 hstep.2
    simp [List.countP_cons, hstep.1, hcount]
  · rw [run_cons _ _ _ rfl, tick_initR]
    simp only
    rw [run_cons _ _ _ rfl, tick_c6Mid0_pressS]
    simp only
    rw [run_cons _ _ _ rfl, tick_c2S_pressR]
    simp [run_nil, outR0, outCollect0, outFlush0]
  · rw [run_cons _ _ _ rfl, tick_initR]
    simp only
    rw [run_cons _ _ _ rfl, tick_c6Mid0_pressS]
    simp only
    rw [run_cons _ _ _ rfl, tick_c2S_pressR]
    simp [run_nil, c2SFinal]

/-- Witness for C2: holding `'r'` for 2 ticks from the start state creates
exactly one session folder. -/
theorem C2_toggle_debounce_witness :
    ((run (initState ∅) (List.replicate 2 pressR)).2.countP
      (fun o => o.folderCreated)) = 1 :=
  (C2_toggle_debounce (initState ∅) ⟨rfl, rfl, rfl, rfl, rfl⟩ 2 (by norm_num)).1

/-! ## C3: command-to-DriveCommand mapping -/

/-- C3 counterexample: on the first tick with UP pressed, the DriveCommand
in effect is `(speed, angle) = (1, 0.1)` (from `DEFAULT_SPEED = 1` and the
UP branch's `angle = 0.1`), not the claimed `(0.4, 0)`. -/
theorem C3_counterexample :
    ((run (initState ∅) [pressUP]).2.map (fun o => o.driveCmd)) = [(1, 1/10)] ∧
    ((1 : ℚ), (1/10 : ℚ)) ≠ ((4/10 : ℚ), (0 : ℚ)) := by
  constructor
  · rw [run_cons _ _ _ rfl, tick_init_pressUP]
    simp [run_nil, outUPIdle]
  · intro hcon
    rw [Prod.ext_iff] at hcon
    norm_num at hcon

/-- C3 (amended): the per-tick mapping actually implemented is
RIGHT → angle 0.7 with speed unchanged; LEFT → angle -0.5 with speed
unchanged; UP → (1, 0.1); DOWN → (-1, 0.1); `'s'` (STOP) → (0, 0); and
feeding UP then RIGHT then `'s'` on three consecutive ticks from the start
state yields the DriveCommands (1, 0.1), (1, 0.7), (0, 0) in that order. -/
theorem C3_command_mapping (σ : CarState) :
    (tick σ pressRIGHT).2.driveCmd = (σ.speed, 7/10) ∧
    (tick σ pressLEFT).2.driveCmd = (σ.speed, -(1/2)) ∧
    (tick σ pressUP).2.driveCmd = (1, 1/10) ∧
    (tick σ pressDOWN).2.driveCmd = (-1, 1/10) ∧
    (tick σ pressS).2.driveCmd = (0, 0) ∧
    ((run (initState ∅) [pressUP, pressRIGHT, pressS]).2.map
      (fun o => o.driveCmd)) = [(1, 1/10), (1, 7/10), (0, 0)] := by
  refine ⟨?_, ?_, ?_, ?_, ?_, ?_⟩
  · simp +decide [tick, get_key_press, update_movement_controls, keyList,
      List.find?, pressRIGHT, DEFAULT_ANGLE, DEFAULT_SPEED]
  · simp +decide [tick, get_key_press, update_movement_controls, keyList,
      List.find?, pressLEFT, DEFAULT_ANGLE, DEFAULT_SPEED]
  · simp +decide [tick, get_key_press, update_movement_controls, keyList,
      List.find?, pressUP, DEFAULT_ANGLE, DEFAULT_SPEED]
  · simp +decide [tick, get_key_press, update_movement_controls, keyList,
      List.find?, pressDOWN, DEFAULT_ANGLE, DEFAULT_SPEED]
  · simp +decide [tick, get_key_press, update_movement_controls, keyList,
      List.find?, pressS, DEFAULT_ANGLE, DEFAULT_SPEED]
  · rw [run_cons _ _ _ rfl, tick_init_pressUP]
    simp only
    rw [run_cons _ _ _ rfl, tick_c3U_pressRIGHT]
    simp only
    rw [run_cons _ _ _ rfl, tick_c3UR_pressS]
    simp [run_nil, outUPIdle, outRIGHTIdle, outSIdle]

/-! ## C9: session folder creation and first sample share a tick -/

/-- C9 counterexample: on the very tick that opens the session (creates the
folder), the `record == 2` branch already runs `collect_data` — the first
sample is captured on the same tick as folder creation, not one tick later;
after that single tick the buffer already holds one sample. -/
theorem C9_counterexample :
    ((run (initState ∅) [pressR]).2.map
      (fun o => (o.folderCreated, o.collected))) = [(true, true)] ∧
    (run (initState ∅) [pressR]).1.dc.img_list.length = 1 := by
  rw [run_cons _ _ _ rfl, tick_initR]
  simp [run_nil, outR0, c6MidState]

/-- C9 (amended): the IDLE→ARMED and ARMED→ACTIVE transitions happen within
one and the same tick: whenever a tick creates the session folder
(`record == 1` branch), the very same tick runs the collect branch
(`if record == 2` is a separate `if`, not an `elif` of the folder branch)
and leaves the machine in the collecting state `record = 2`; the
intermediate `record == 1` is never observable across a tick boundary. -/
theorem C9_armed_collects_same_tick (σ : CarState) (pressed : Key → Bool)
    (h : (tick σ pressed).2.folderCreated = true) :
    (tick σ pressed).2.collected = true ∧ (tick σ pressed).1.record = 2 := by
  simp only [tick] at h ⊢
  rw [decide_eq_true_eq] at h
  simp [h]

/-- Witness for C9: the session-opening tick from the start state both
creates the folder and collects. -/
theorem C9_armed_collects_same_tick_witness :
    (tick (initState ∅) pressR).2.collected = true ∧
    (tick (initState ∅) pressR).1.record = 2 :=
  C9_armed_collects_same_tick (initState ∅) pressR (by rw [tick_initR]; rfl)

/-! ## C10: per-tick angle reset and speed latch -/

/-- If the current key value is the latch residue (`none` or the stale
`'r'`), `update_movement_controls` leaves `angle` unchanged. -/
theorem update_angle_of_latch (c : Controls)
    (h : c.key_val = none ∨ c.key_val = some Key.r) :
    (update_movement_controls c).angle = c.angle := by
  rcases h with h | h
  all_goals simp +decide [update_movement_controls, h]
  all_goals split_ifs <;> simp_all

/-- `update_movement_controls` only ever writes `speed` in the UP, DOWN and
`'s'` branches. -/
theorem update_speed_of (c : Controls)
    (h1 : c.key_val ≠ some Key.UP) (h2 : c.key_val ≠ some Key.DOWN)
    (h3 : c.key_val ≠ some Key.s) :
    (update_movement_controls c).speed = c.speed := by
  simp only [update_movement_controls]
  split_ifs <;> simp_all

/-- The UP branch sets `angle` to 0.1. -/
theorem update_angle_UP (c : Controls) (h : c.key_val = some Key.UP) :
    (update_movement_controls c).angle = 1/10 := by
  simp +decide [update_movement_controls, h]

/-- The DOWN branch sets `angle` to 0.1. -/
theorem update_angle_DOWN (c : Controls) (h : c.key_val = some Key.DOWN) :
    (update_movement_controls c).angle = 1/10 := by
  simp +decide [update_movement_controls, h]

/-- C10: the loop resets `angle` to 0 at the start of every tick before
polling, so on any tick where no key is matched the tick's commanded
steering angle is 0 regardless of history (the final `set_angle` call of
the tick writes 0); UP and DOWN set the angle to 0.1, not 0; and the
commanded speed is never reset by the loop: it persists unchanged across
any tick on which none of UP, DOWN, `'s'` is pressed. (`σ.key_val` being
`none` or the stale `'r'` is the invariant shape of the latch at a tick
boundary.) -/
theorem C10_steering_reset (σ : CarState) (pressed : Key → Bool)
    (hkv : σ.key_val = none ∨ σ.key_val = some Key.r) :
    (keyList.find? pressed = none →
      (tick σ pressed).1.angle = 0 ∧
      (tick σ pressed).2.servoCmds.getLast? = some 0) ∧
    (keyList.find? pressed = some Key.UP →
      (tick σ pressed).1.angle = 1/10 ∧ ((1 : ℚ)/10) ≠ 0) ∧
    (keyList.find? pressed = some Key.DOWN →
      (tick σ pressed).1.angle = 1/10) ∧
    (pressed Key.UP = false → pressed Key.DOWN = false →
      pressed Key.s = false → (tick σ pressed).1.speed = σ.speed) := by
  refine ⟨?_, ?_, ?_, ?_⟩
  · intro hnone
    have hkv2 : get_key_press pressed σ.key_val = σ.key_val := by
      unfold get_key_press
      rw [hnone]
    have hangle :
        (update_movement_controls
          { speed := σ.speed, angle := 0, record := σ.record, done := σ.done,
            key_val := get_key_press pressed σ.key_val,
            key_old := σ.key_old }).angle = 0 := by
      rw [hkv2]
      exact update_angle_of_latch _ hkv
    constructor
    · show (update_movement_controls _).angle = 0
      exact hangle
    · simp only [tick]
      rw [hangle]
      have hc0 : clampQ (-1) 1 0 = 0 := by norm_num [clampQ, maxQ, minQ]
      rw [hc0]
      split_ifs <;>
        simp [List.getLast?_concat]
  · intro hUP
    have hkv2 : get_key_press pressed σ.key_val = some Key.UP := by
      unfold get_key_press
      rw [hUP]
    refine ⟨?_, by norm_num⟩
    show (update_movement_controls _).angle = 1/10
    exact update_angle_UP _ (by simp [hkv2])
  · intro hDOWN
    have hkv2 : get_key_press pressed σ.key_val = some Key.DOWN := by
      unfold get_key_press
      rw [hDOWN]
    show (update_movement_controls _).angle = 1/10
    exact update_angle_DOWN _ (by simp [hkv2])
  · intro hU hD hS
    have hne : ∀ bad : Key, bad ≠ Key.r → pressed bad = false →
        get_key_press pressed σ.key_val ≠ some bad := by
      intro bad hbr hbf
      unfold get_key_press
      cases hfind : keyList.find? pressed with
      | none =>
        rcases hkv with h | h <;> rw [h]
        · exact fun hcon => Option.noConfusion hcon
        · intro hcon
          rw [Option.some_inj] at hcon
          exact hbr hcon.symm
      | some key =>
        intro hcon
        rw [Option.some_inj] at hcon
        have hp := List.find?_some hfind
        rw [hcon, hbf] at hp
        exact Bool.noConfusion hp
    show (update_movement_controls _).speed = σ.speed
    exact update_speed_of _ (hne Key.UP (by decide) hU)
      (hne Key.DOWN (by decide) hD) (hne Key.s (by decide) hS)

/-- Witness for C10: on a no-key tick from the start state the commanded
angle is 0 and the speed is unchanged. -/
theorem C10_steering_reset_witness :
    (tick (initState ∅) pressNone).1.angle = 0 ∧
    (tick (initState ∅) pressNone).1.speed = 0 := by
  have h := C10_steering_reset (initState ∅) pressNone (Or.inl rfl)
  exact ⟨(h.1 (by decide)).1, h.2.2.2 rfl rfl rfl⟩

/-! ## C6: session flush consistency -/

/-- The C6 trace from a fresh process on empty storage: press `'r'` (opens
the session and collects the first sample), hold UP for `j+1` ticks (each
collects), then press `'r'` again (toggles off and flushes). The session is
ACTIVE — i.e. the collect branch runs — for exactly `j+2` ticks. -/
def c6Trace (j : Nat) : CarState × List TickOut :=
  run (initState ∅) (pressR :: (List.replicate (j + 1) pressUP ++ [pressR]))

theorem c6Trace_eq (j : Nat) :
    c6Trace j = (c6FinalState (j + 1),
      outR0 :: (List.replicate (j + 1) outUP ++ [outFlushC6])) := by
  unfold c6Trace
  rw [run_cons _ _ _ rfl, tick_initR]
  simp only
  rw [c6_run j 0]
  norm_num

/-- C6: after a session that collects for exactly `k = j+2` ticks and is
then toggled off, exactly one label file is written, named by the session's
folder index 0; it holds exactly `k` rows in capture order, each row the
triple (image reference, speed, angle) — no header exists in the model, a
row is nothing but the positional triple; each row's speed/angle equals the
DriveCommand in effect on that row's tick (the collected ticks' outputs);
exactly `k` image captures were made, all into the session folder; and
after the flush all three sample buffers are empty, the flush having
happened exactly once. -/
theorem C6_session_flush (j : Nat) :
    (c6Trace j).1.logs =
      [(0, zipRows ((0, 0) :: (List.range (j + 1)).map (fun t => (0, t + 1)))
                   (0 :: List.replicate (j + 1) 1)
                   (0 :: List.replicate (j + 1) (1/10)))] ∧
    (zipRows ((0, 0) :: (List.range (j + 1)).map (fun t => (0, t + 1)))
             (0 :: List.replicate (j + 1) 1)
             (0 :: List.replicate (j + 1) (1/10))).length = j + 2 ∧
    (zipRows ((0, 0) :: (List.range (j + 1)).map (fun t => (0, t + 1)))
             (0 :: List.replicate (j + 1) 1)
             (0 :: List.replicate (j + 1) (1/10))).map (fun row => row.2) =
      (((c6Trace j).2.filter (fun o => o.collected)).map (fun o => o.driveCmd)) ∧
    (c6Trace j).1.captures.length = j + 2 ∧
    (c6Trace j).1.captures.map Prod.fst = List.replicate (j + 2) 0 ∧
    (c6Trace j).1.dc.img_list = [] ∧
    (c6Trace j).1.dc.speed_list = [] ∧
    (c6Trace j).1.dc.angle_list = [] ∧
    ((c6Trace j).2.countP (fun o => o.collected)) = j + 2 ∧
    ((c6Trace j).2.countP (fun o => o.flushed)) = 1 := by
  have he := c6Trace_eq j
  have hlen1 :
      ((0, 0) :: (List.range (j + 1)).map (fun t => (0, t + 1))).length =
        (0 :: List.replicate (j + 1) (1 : ℚ)).length := by simp
  have hlen2 :
      (0 :: List.replicate (j + 1) (1 : ℚ)).length =
        (0 :: List.replicate (j + 1) ((1 : ℚ)/10)).length := by simp
  refine ⟨by rw [he]; rfl, ?_, ?_, ?_, ?_, ?_, ?_, ?_, ?_, ?_⟩
  · rw [zipRows_length _ _ _ hlen1 hlen2]
    simp only [List.length_cons, List.length_map, List.length_range]
  · rw [zipRows_map_snd _ _ _ hlen1 hlen2, he]
    simp only [List.zip_cons_cons, replicate_zip_replicate]
    rw [List.filter_cons, List.filter_append]
    norm_num [outR0, outUP, outFlushC6]
  · rw [he]
    simp [c6FinalState]
  · rw [he]
    show (((0, 0) :: (List.range (j + 1)).map (fun t => (0, t + 1))).map Prod.fst)
      = List.replicate (j + 2) 0
    exact map_fst_session_captures (j + 1)
  · rw [he]
    rfl
  · rw [he]
    rfl
  · rw [he]
    rfl
  · rw [he]
    rw [List.countP_cons, List.countP_append, countP_replicate]
    norm_num [outR0, outUP, outFlushC6, List.countP_cons]
  · rw [he]
    rw [List.countP_cons, List.countP_append, countP_replicate]
    norm_num [outR0, outUP, outFlushC6, List.countP_cons]
